import Mathlib

/-!
Verification of the dozor repository's command-allowlisting layer
(`src/dozor/validation.py`, `src/dozor/transport.py`), log-analysis engine
(`src/_python_backup/dozor/analyzers/log_analyzer.py`), log parser
(`src/_python_backup/dozor/collectors/logs.py`), diagnostic-report health rollup
(`src/_python_backup/dozor/models.py`, `src/dozor/agent.py`) and the
firewall-status memoization of the security collector
(`src/dozor/collectors/security/`).

All of these components drive their matching through Python `re` regular
expressions.  We embed the fragment of Python regex semantics that the
repository's patterns use: literal characters, character classes (with ranges
and negation), `.`, concatenation, alternation `|`, greedy `*` `+` `?` `{m,n}`,
anchors `^` `$`, and the word boundary `\b`, under optional `re.IGNORECASE`.
The matcher enumerates candidate match end-positions in exactly Python's
backtracking priority order (greedy quantifiers try longer continuations
first, alternatives left to right), so that the *first* element of the
enumeration is the end of the match Python's engine reports.  `re.search`,
`re.match` and `re.sub(..., count=1)` are derived from it.
-/

namespace Dozor

/-- One item of a character class: either a single character or a range. -/
inductive CItem where
  | chr (c : Char)
  | range (lo hi : Char)
  deriving Repr, DecidableEq

/-- Regex AST covering the constructs used by the repository's patterns. -/
inductive Regex where
  /-- matches nothing (empty alternation) -/
  | fail
  /-- matches the empty string -/
  | eps
  /-- character class `[...]` / `[^...]`; a literal is a one-item class -/
  | cls (neg : Bool) (items : List CItem)
  /-- `.` : any character except newline -/
  | dot
  /-- concatenation -/
  | cat (a b : Regex)
  /-- alternation `a|b`, `a` preferred -/
  | alt (a b : Regex)
  /-- greedy `a*` -/
  | star (a : Regex)
  /-- `^` (no MULTILINE): start of string -/
  | bol
  /-- `$` (no MULTILINE): end of string, or just before a final newline -/
  | eol
  /-- `\b` word boundary -/
  | wb
  deriving Repr, DecidableEq

/-- Does a class item match a character exactly? -/
def citemMatches (it : CItem) (c : Char) : Bool :=
  match it with
  | .chr d => c == d
  | .range lo hi => decide (lo.toNat ≤ c.toNat ∧ c.toNat ≤ hi.toNat)

/-- Class-item match under optional `re.IGNORECASE`: the character matches if
it, its lower-case or its upper-case form is in the class. -/
def citemMatchesCI (ci : Bool) (it : CItem) (c : Char) : Bool :=
  citemMatches it c || (ci && (citemMatches it c.toLower || citemMatches it c.toUpper))

/-- Character-class match, honouring negation. -/
def clsMatches (ci : Bool) (neg : Bool) (items : List CItem) (c : Char) : Bool :=
  let m := items.any (fun it => citemMatchesCI ci it c)
  if neg then !m else m

/-- Python `\w` / `\b` word characters (ASCII fragment). -/
def isWordChar (c : Char) : Bool :=
  c.isAlpha || c.isDigit || c == '_'

/-- Greedy-star iteration: given the end positions `ae i` of the starred body
at each position, enumerate the end positions of zero or more body repetitions
starting at `i`, longer runs first (Python's greedy priority).  Only
progress-making repetitions with in-range targets are followed, which is how
Python avoids looping on a nullable body; hence `fuel = slen + 1` bounds the
number of repetitions from any start position. -/
def starIter (slen : Nat) (ae : Nat → List Nat) : Nat → Nat → List Nat
  | 0, i => [i]
  | fuel + 1, i =>
    (((ae i).filter (fun j => i < j && j ≤ slen)).flatMap
      (fun j => starIter slen ae fuel j)) ++ [i]

/-- All end positions `j` such that the regex matches `s[i..j)`, listed in
Python's backtracking priority order: the head of the list is the end of the
match Python's engine reports when matching at `i`.  Anchors and `\b` consult
the whole string `s`. -/
def Regex.ends (ci : Bool) (s : List Char) : Regex → Nat → List Nat
  | .fail, _ => []
  | .eps, i => [i]
  | .cls neg items, i =>
    match s[i]? with
    | some c => if clsMatches ci neg items c then [i + 1] else []
    | none => []
  | .dot, i =>
    match s[i]? with
    | some c => if c == '\n' then [] else [i + 1]
    | none => []
  | .cat a b, i => (Regex.ends ci s a i).flatMap (fun j => Regex.ends ci s b j)
  | .alt a b, i => Regex.ends ci s a i ++ Regex.ends ci s b i
  | .star a, i => starIter s.length (Regex.ends ci s a) (s.length + 1) i
  | .bol, i => if i == 0 then [i] else []
  | .eol, i =>
    if i == s.length || (i + 1 == s.length && s[i]? == some '\n') then [i] else []
  | .wb, i =>
    let wl := if i == 0 then false else
      match s[i - 1]? with | some c => isWordChar c | none => false
    let wr := match s[i]? with | some c => isWordChar c | none => false
    if wl != wr then [i] else []

/-- `re.match(r, s)` (the pattern matches at position 0). -/
def rmatch (ci : Bool) (r : Regex) (s : String) : Bool :=
  !(Regex.ends ci s.data r 0).isEmpty

/-- Leftmost match of `r` in `s`: the smallest start position `i` at which `r`
matches, paired with the end position Python's backtracking reports there. -/
def firstMatch? (ci : Bool) (r : Regex) (s : String) : Option (Nat × Nat) :=
  (List.range (s.data.length + 1)).findSome? (fun i =>
    (Regex.ends ci s.data r i).head?.map (fun j => (i, j)))

/-- `re.search(r, s)` viewed as a Bool. -/
def rsearch (ci : Bool) (r : Regex) (s : String) : Bool :=
  (firstMatch? ci r s).isSome

/-- `re.sub(r, '', s, count=1)`: remove the leftmost match of `r` from `s`.
(The repository only ever substitutes the empty replacement, and only on
patterns that can match at most once, so this also models its `count=0` subs.) -/
def subFirst (ci : Bool) (r : Regex) (s : String) : String :=
  match firstMatch? ci r s with
  | none => s
  | some (i, j) => String.mk (s.data.take i ++ s.data.drop j)

/-- Python `str.strip()` whitespace set. -/
def pySpaceChar (c : Char) : Bool :=
  c == ' ' || c == '\t' || c == '\n' || c == '\r' || c == '\x0b' || c == '\x0c'

/-- Python `str.strip()`. -/
def pyStrip (s : String) : String :=
  String.mk (((s.data.dropWhile pySpaceChar).reverse.dropWhile pySpaceChar).reverse)

/-! ### Pattern-construction helpers (transcription combinators) -/

/-- Literal character. -/
def rchr (c : Char) : Regex := .cls false [.chr c]

/-- Literal string. -/
def rstr (s : String) : Regex :=
  s.data.foldr (fun c r => .cat (rchr c) r) .eps

/-- Sequence of regexes. -/
def rcat (rs : List Regex) : Regex := rs.foldr .cat .eps

/-- Alternation `r1|r2|...` (left to right priority). -/
def ralt (rs : List Regex) : Regex :=
  match rs with
  | [] => .fail
  | r :: rest => rest.foldl .alt r

/-- Greedy `r+`. -/
def rplus (r : Regex) : Regex := .cat r (.star r)

/-- Greedy `r?`. -/
def ropt (r : Regex) : Regex := .alt r .eps

/-- `r{n}`. -/
def rrep (r : Regex) (n : Nat) : Regex := rcat (List.replicate n r)

/-- Greedy `r{0,n}` (longer repetitions preferred). -/
def rupto (r : Regex) : Nat → Regex
  | 0 => .eps
  | n + 1 => ropt (.cat r (rupto r n))

/-- Greedy `r{m,n}`. -/
def rrange (r : Regex) (m n : Nat) : Regex := .cat (rrep r m) (rupto r (n - m))

/-- `\d`. -/
def rdigit : Regex := .cls false [.range '0' '9']

/-- `\w` (ASCII fragment). -/
def rword : Regex := .cls false [.range 'a' 'z', .range 'A' 'Z', .range '0' '9', .chr '_']

/-- `\s` (`[ \t\n\r\f\v]`). -/
def rspace : Regex :=
  .cls false [.chr ' ', .chr '\t', .chr '\n', .chr '\r', .chr '\x0b', .chr '\x0c']

/-- The backtick character (code point 96). -/
def backtickChar : Char := Char.ofNat 96

/-- The single-quote character (code point 39). -/
def squoteChar : Char := Char.ofNat 39

/-! ## `src/dozor/validation.py`

Transcription of `ALLOWED_COMMANDS` and `BLOCKED_PATTERNS` and of
`is_command_allowed`.  Each regex below is preceded by the original Python
pattern string as a comment. -/

/-- The class `[a-zA-Z0-9._` slash `-]` used by the safe-path patterns. -/
def safePathCls : Regex :=
  .cls false [.range 'a' 'z', .range 'A' 'Z', .range '0' '9', .chr '.', .chr '_',
    .chr '/', .chr '-']

/-- `[a-zA-Z0-9_-]` -/
def nameCls : Regex :=
  .cls false [.range 'a' 'z', .range 'A' 'Z', .range '0' '9', .chr '_', .chr '-']

/-- `["\']` -/
def quoteCls : Regex := .cls false [.chr '"', .chr squoteChar]

/-- `ALLOWED_COMMANDS` (compiled case-sensitively, used with `re.match`). -/
def ALLOWED_COMMANDS : List Regex := [
  -- r'^docker\s+(ps|logs|inspect|stats|top|images|info|version)(\s|$)'
  rcat [.bol, rstr "docker", rplus rspace,
    ralt [rstr "ps", rstr "logs", rstr "inspect", rstr "stats", rstr "top",
      rstr "images", rstr "info", rstr "version"],
    ralt [rspace, .eol]],
  -- r'^docker\s+compose\s+(ps|logs|config|images|top|version)(\s|$)'
  rcat [.bol, rstr "docker", rplus rspace, rstr "compose", rplus rspace,
    ralt [rstr "ps", rstr "logs", rstr "config", rstr "images", rstr "top",
      rstr "version"],
    ralt [rspace, .eol]],
  -- r'^(cat|head|tail)\s+/var/log/[a-zA-Z0-9._/-]+$'
  rcat [.bol, ralt [rstr "cat", rstr "head", rstr "tail"], rplus rspace,
    rstr "/var/log/", rplus safePathCls, .eol],
  -- r'^(ls|ll)\s+(-[lah]+\s+)?(/var/log/|~/|/home/)[a-zA-Z0-9._/-]*$'
  rcat [.bol, ralt [rstr "ls", rstr "ll"], rplus rspace,
    ropt (rcat [rchr '-', rplus (.cls false [.chr 'l', .chr 'a', .chr 'h']),
      rplus rspace]),
    ralt [rstr "/var/log/", rstr "~/", rstr "/home/"], .star safePathCls, .eol],
  -- r'^(df|free|uptime|uname|hostname|whoami|pwd|date)(\s+-[a-z]+)?$'
  rcat [.bol, ralt [rstr "df", rstr "free", rstr "uptime", rstr "uname",
    rstr "hostname", rstr "whoami", rstr "pwd", rstr "date"],
    ropt (rcat [rplus rspace, rchr '-', rplus (.cls false [.range 'a' 'z'])]), .eol],
  -- r'^(du)\s+-[sh]+\s+(/var/log/|~/|/tmp/)[a-zA-Z0-9._/-]*$'
  rcat [.bol, rstr "du", rplus rspace, rchr '-',
    rplus (.cls false [.chr 's', .chr 'h']), rplus rspace,
    ralt [rstr "/var/log/", rstr "~/", rstr "/tmp/"], .star safePathCls, .eol],
  -- r'^(ps)\s+(aux|ef|-ef)$'
  rcat [.bol, rstr "ps", rplus rspace, ralt [rstr "aux", rstr "ef", rstr "-ef"], .eol],
  -- r'^(netstat|ss)\s+-[tlnup]+$'
  rcat [.bol, ralt [rstr "netstat", rstr "ss"], rplus rspace, rchr '-',
    rplus (.cls false [.chr 't', .chr 'l', .chr 'n', .chr 'u', .chr 'p']), .eol],
  -- r'^lsof\s+-i\s*$'
  rcat [.bol, rstr "lsof", rplus rspace, rstr "-i", .star rspace, .eol],
  -- r'^systemctl\s+(status|is-active|is-enabled)\s+[a-zA-Z0-9_-]+$'
  rcat [.bol, rstr "systemctl", rplus rspace,
    ralt [rstr "status", rstr "is-active", rstr "is-enabled"], rplus rspace,
    rplus nameCls, .eol],
  -- r'^systemctl\s+list-units(\s+--type=[a-z]+)?$'
  rcat [.bol, rstr "systemctl", rplus rspace, rstr "list-units",
    ropt (rcat [rplus rspace, rstr "--type=", rplus (.cls false [.range 'a' 'z'])]),
    .eol],
  -- r'^journalctl\s+(-u\s+[a-zA-Z0-9_-]+|--since\s+"[^"]+"|--no-pager|-n\s+\d+|\s)+$'
  rcat [.bol, rstr "journalctl", rplus rspace,
    rplus (ralt [
      rcat [rstr "-u", rplus rspace, rplus nameCls],
      rcat [rstr "--since", rplus rspace, rchr '"',
        rplus (.cls true [.chr '"']), rchr '"'],
      rstr "--no-pager",
      rcat [rstr "-n", rplus rspace, rplus rdigit],
      rspace]),
    .eol],
  -- r'^ping\s+-c\s+\d+\s+[a-zA-Z0-9.-]+$'
  rcat [.bol, rstr "ping", rplus rspace, rstr "-c", rplus rspace, rplus rdigit,
    rplus rspace,
    rplus (.cls false [.range 'a' 'z', .range 'A' 'Z', .range '0' '9', .chr '.',
      .chr '-']), .eol],
  -- r'^(dig|nslookup|host)\s+[a-zA-Z0-9.-]+$'
  rcat [.bol, ralt [rstr "dig", rstr "nslookup", rstr "host"], rplus rspace,
    rplus (.cls false [.range 'a' 'z', .range 'A' 'Z', .range '0' '9', .chr '.',
      .chr '-']), .eol],
  -- r'^cat\s+~/[a-zA-Z0-9_-]+/[a-zA-Z0-9_.-]+\.(yml|yaml|json|conf|env\.example|txt|log)$'
  rcat [.bol, rstr "cat", rplus rspace, rstr "~/", rplus nameCls, rchr '/',
    rplus (.cls false [.range 'a' 'z', .range 'A' 'Z', .range '0' '9', .chr '_',
      .chr '.', .chr '-']),
    rchr '.', ralt [rstr "yml", rstr "yaml", rstr "json", rstr "conf",
      rstr "env.example", rstr "txt", rstr "log"], .eol],
  -- r'^cat\s+/var/log/[a-zA-Z0-9._/-]+$'
  rcat [.bol, rstr "cat", rplus rspace, rstr "/var/log/", rplus safePathCls, .eol],
  -- r'^grep\s+(-[ivnc]+\s+)?["\'][^"\']+["\']\s+(/var/log/|~/)[a-zA-Z0-9._/-]+$'
  rcat [.bol, rstr "grep", rplus rspace,
    ropt (rcat [rchr '-',
      rplus (.cls false [.chr 'i', .chr 'v', .chr 'n', .chr 'c']), rplus rspace]),
    quoteCls, rplus (.cls true [.chr '"', .chr squoteChar]), quoteCls, rplus rspace,
    ralt [rstr "/var/log/", rstr "~/"], rplus safePathCls, .eol],
  -- r'^find\s+~/[a-zA-Z0-9_/-]*\s+-name\s+["\'][a-zA-Z0-9.*_-]+["\'](\s+-type\s+[fd])?$'
  rcat [.bol, rstr "find", rplus rspace, rstr "~/",
    .star (.cls false [.range 'a' 'z', .range 'A' 'Z', .range '0' '9', .chr '_',
      .chr '/', .chr '-']),
    rplus rspace, rstr "-name", rplus rspace, quoteCls,
    rplus (.cls false [.range 'a' 'z', .range 'A' 'Z', .range '0' '9', .chr '.',
      .chr '*', .chr '_', .chr '-']),
    quoteCls,
    ropt (rcat [rplus rspace, rstr "-type", rplus rspace,
      .cls false [.chr 'f', .chr 'd']]), .eol]
]

/-- `BLOCKED_PATTERNS` (compiled with `re.IGNORECASE`, used with `re.search`). -/
def BLOCKED_PATTERNS : List Regex := [
  -- r'rm\s+(-r|-f|-rf|--recursive|--force)'
  rcat [rstr "rm", rplus rspace,
    ralt [rstr "-r", rstr "-f", rstr "-rf", rstr "--recursive", rstr "--force"]],
  -- r'>\s*/dev/'
  rcat [rchr '>', .star rspace, rstr "/dev/"],
  -- r'mkfs'
  rstr "mkfs",
  -- r'dd\s+if='
  rcat [rstr "dd", rplus rspace, rstr "if="],
  -- r'chmod\s+(-R\s+)?[0-7]{3,4}\s+/'
  rcat [rstr "chmod", rplus rspace, ropt (rcat [rstr "-R", rplus rspace]),
    rrange (.cls false [.range '0' '7']) 3 4, rplus rspace, rchr '/'],
  -- r'chown\s+(-R\s+)?'
  rcat [rstr "chown", rplus rspace, ropt (rcat [rstr "-R", rplus rspace])],
  -- r':\(\)\s*\{'  (fork bomb)
  rcat [rchr ':', rchr '(', rchr ')', .star rspace, rchr '\x7b'],
  -- r'\$\('
  rcat [rchr '$', rchr '('],
  -- r'\$\{'
  rcat [rchr '$', rchr '\x7b'],
  -- r'`'  (backtick execution)
  rchr backtickChar,
  -- r'\$\w+'
  rcat [rchr '$', rplus rword],
  -- r';\s*(rm|dd|mkfs|chmod|chown|mv|cp\s+-r|tar|zip|curl|wget|python|perl|ruby|node|bash|sh)'
  rcat [rchr ';', .star rspace,
    ralt [rstr "rm", rstr "dd", rstr "mkfs", rstr "chmod", rstr "chown", rstr "mv",
      rcat [rstr "cp", rplus rspace, rstr "-r"], rstr "tar", rstr "zip",
      rstr "curl", rstr "wget", rstr "python", rstr "perl", rstr "ruby",
      rstr "node", rstr "bash", rstr "sh"]],
  -- r'\|\s*(rm|dd|mkfs|chmod|chown|bash|sh|zsh|python|perl|ruby|node|xargs)'
  rcat [rchr '|', .star rspace,
    ralt [rstr "rm", rstr "dd", rstr "mkfs", rstr "chmod", rstr "chown",
      rstr "bash", rstr "sh", rstr "zsh", rstr "python", rstr "perl", rstr "ruby",
      rstr "node", rstr "xargs"]],
  -- r'&&\s*(rm|dd|mkfs|chmod|chown|mv|cp\s+-r)'
  rcat [rstr "&&", .star rspace,
    ralt [rstr "rm", rstr "dd", rstr "mkfs", rstr "chmod", rstr "chown", rstr "mv",
      rcat [rstr "cp", rplus rspace, rstr "-r"]]],
  -- r'eval\s'
  rcat [rstr "eval", rspace],
  -- r'exec\s'
  rcat [rstr "exec", rspace],
  -- r'source\s'
  rcat [rstr "source", rspace],
  -- r'\.\s+/'  (dot sourcing)
  rcat [rchr '.', rplus rspace, rchr '/'],
  -- r'>\s*/'
  rcat [rchr '>', .star rspace, rchr '/'],
  -- r'>>\s*/'
  rcat [rstr ">>", .star rspace, rchr '/'],
  -- r'>\s*~/'
  rcat [rchr '>', .star rspace, rstr "~/"],
  -- r'>>\s*~/'
  rcat [rstr ">>", .star rspace, rstr "~/"],
  -- r'curl.*\|\s*(bash|sh|zsh|python|perl)'
  rcat [rstr "curl", .star .dot, rchr '|', .star rspace,
    ralt [rstr "bash", rstr "sh", rstr "zsh", rstr "python", rstr "perl"]],
  -- r'wget.*\|\s*(bash|sh|zsh|python|perl)'
  rcat [rstr "wget", .star .dot, rchr '|', .star rspace,
    ralt [rstr "bash", rstr "sh", rstr "zsh", rstr "python", rstr "perl"]],
  -- r'curl.*-o\s'
  rcat [rstr "curl", .star .dot, rstr "-o", rspace],
  -- r'wget.*-O\s'
  rcat [rstr "wget", .star .dot, rstr "-O", rspace],
  -- r'\.\.'  (parent directory reference)
  rstr "..",
  -- r'/etc/shadow'
  rstr "/etc/shadow",
  -- r'/etc/passwd'
  rstr "/etc/passwd",
  -- r'\.ssh/'
  rstr ".ssh/",
  -- r'\.gnupg/'
  rstr ".gnupg/",
  -- r'\.aws/'
  rstr ".aws/",
  -- r'\.kube/config'
  rstr ".kube/config",
  -- r'grep\s+-r'
  rcat [rstr "grep", rplus rspace, rstr "-r"],
  -- r'find\s+/'
  rcat [rstr "find", rplus rspace, rchr '/'],
  -- r'-exec\s'
  rcat [rstr "-exec", rspace],
  -- r'-delete'
  rstr "-delete",
  -- r'nc\s'
  rcat [rstr "nc", rspace],
  -- r'ncat\s'
  rcat [rstr "ncat", rspace],
  -- r'socat\s'
  rcat [rstr "socat", rspace]
]

/-- `is_command_allowed` (`validation.py` lines 105-124).  Blocked patterns are
the compiled-with-`IGNORECASE` list tested with `re.search`; allowed patterns
are compiled case-sensitively and tested with `re.match`. -/
def is_command_allowed (command : String) : Bool × String :=
  let command := pyStrip command
  if BLOCKED_PATTERNS.any (fun p => rsearch true p command) then
    (false, "Command contains blocked pattern")
  else if ALLOWED_COMMANDS.any (fun p => rmatch false p command) then
    (true, "Command matches allowed pattern")
  else
    (false, "Command not in allowlist. Only read-only diagnostic commands are permitted.")

/-! ## `src/dozor/transport.py`

`SSHTransport.execute`.  Process spawning is the one I/O boundary: we model it
as an explicit argument `run : List String → SpawnOutcome` mapping the argv
list that `subprocess.run` would receive to what the subprocess call does
(complete / raise `TimeoutExpired` / raise `FileNotFoundError` / raise some
other exception).  The rest of `execute` is translated directly. -/

/-- `CommandResult` (`transport.py` lines 26-33). -/
structure CommandResult where
  stdout : String
  stderr : String
  return_code : Int
  command : String
  success : Bool
  deriving Repr, DecidableEq

/-- Outcome of one `subprocess.run` invocation. -/
inductive SpawnOutcome where
  | completed (stdout stderr : String) (returncode : Int)
  | timedOut
  | fileNotFound
  | raised (msg : String)
  deriving Repr, DecidableEq

/-- `ServerConfig` fields consumed by `SSHTransport` (`config.py`). -/
structure ServerConfig where
  host : String
  user : String
  port : Nat
  ssh_key : Option String
  timeout : Nat
  compose_path : String
  deriving Repr, DecidableEq

/-- `self._is_local` (`transport.py` line 51). -/
def ServerConfig.is_local (cfg : ServerConfig) : Bool :=
  cfg.host == "local" || cfg.host == "localhost" || cfg.host == "127.0.0.1"

/-- `SSHTransport._build_ssh_command` (`transport.py` lines 53-76). -/
def build_ssh_command (cfg : ServerConfig) (remote_command : String) : List String :=
  ["ssh"]
    ++ ["-o", "BatchMode=yes"]
    ++ ["-o", "StrictHostKeyChecking=accept-new"]
    ++ ["-o", "ConnectTimeout=" ++ toString cfg.timeout]
    ++ (match cfg.ssh_key with | some k => ["-i", k] | none => [])
    ++ (if cfg.port != 22 then ["-p", toString cfg.port] else [])
    ++ [cfg.user ++ "@" ++ cfg.host]
    ++ [remote_command]

/-- The `try subprocess.run ... except` block of `execute`
(`transport.py` lines 125-167). -/
def runSubprocess (command : String) (effective_timeout : Nat) (argv : List String)
    (run : List String → SpawnOutcome) : CommandResult :=
  match run argv with
  | .completed out err rc =>
    { stdout := pyStrip out, stderr := pyStrip err, return_code := rc,
      command := command, success := rc == 0 }
  | .timedOut =>
    { stdout := "",
      stderr := "Command timed out after " ++ toString effective_timeout ++ " seconds",
      return_code := -1, command := command, success := false }
  | .fileNotFound =>
    { stdout := "", stderr := "SSH client not found. Please install OpenSSH.",
      return_code := -1, command := command, success := false }
  | .raised msg =>
    { stdout := "", stderr := msg, return_code := -1, command := command,
      success := false }

/-- `SSHTransport.execute` (`transport.py` lines 78-167).  `timeout = none`
models passing `None`; `timeout or self.config.timeout` is Python truthiness,
so `some 0` also falls back to the configured timeout. -/
def SSHTransport.execute (cfg : ServerConfig) (command : String)
    (timeout : Option Nat) (skip_validation : Bool)
    (run : List String → SpawnOutcome) : CommandResult :=
  let effective_timeout :=
    match timeout with
    | none => cfg.timeout
    | some t => if t == 0 then cfg.timeout else t
  if cfg.is_local && !skip_validation then
    let (allowed, reason) := is_command_allowed command
    if !allowed then
      { stdout := "", stderr := "Command blocked by security policy: " ++ reason,
        return_code := -1, command := command, success := false }
    else
      let argv := if cfg.is_local then ["bash", "-c", command]
        else build_ssh_command cfg command
      runSubprocess command effective_timeout argv run
  else
    let argv := if cfg.is_local then ["bash", "-c", command]
      else build_ssh_command cfg command
    runSubprocess command effective_timeout argv run

/-! ## `src/_python_backup/dozor/models.py` (types used by the analyzer) -/

/-- `AlertLevel` (`models.py` lines 11-16). -/
inductive AlertLevel where
  | critical
  | error
  | warning
  | info
  deriving Repr, DecidableEq

/-- `ContainerState` (`models.py` lines 19-26). -/
inductive ContainerState where
  | running
  | exited
  | restarting
  | paused
  | dead
  | unknown
  deriving Repr, DecidableEq

/-- A `datetime` value as produced by `datetime.strptime` for the three log
timestamp formats (no timezone; microseconds are stripped before parsing). -/
structure Timestamp where
  year : Nat
  month : Nat
  day : Nat
  hour : Nat
  minute : Nat
  second : Nat
  deriving Repr, DecidableEq

/-- `LogEntry` (`models.py` lines 29-36). -/
structure LogEntry where
  timestamp : Option Timestamp
  level : String
  message : String
  service : String
  raw : String
  deriving Repr, DecidableEq

/-! ## `src/_python_backup/dozor/analyzers/log_analyzer.py` -/

/-- `ErrorPattern` (`log_analyzer.py` lines 14-22).  `pattern` is the regex
source string (it is the aggregation key in `analyze_logs`); the compiled
regex is paired with it in `LogAnalyzer_compiled` below, mirroring
`self._compiled`. -/
structure ErrorPattern where
  pattern : String
  level : AlertLevel
  category : String
  description : String
  suggested_action : String
  services : Option (List String) := none
  deriving Repr, DecidableEq

/-- `BOT_SCANNER_PATHS` (`log_analyzer.py` lines 27-71), compiled with
`re.IGNORECASE` and used with `re.search`. -/
def BOT_SCANNER_PATHS : List Regex := [
  -- r'/SDK/webLanguage'
  rstr "/SDK/webLanguage",
  -- r'/sdk/'
  rstr "/sdk/",
  -- r'/wp-admin'
  rstr "/wp-admin",
  -- r'/wp-login'
  rstr "/wp-login",
  -- r'/wp-content'
  rstr "/wp-content",
  -- r'/wp-includes'
  rstr "/wp-includes",
  -- r'/xmlrpc\.php'
  rstr "/xmlrpc.php",
  -- r'\.php$'
  rcat [rstr ".php", .eol],
  -- r'/phpmyadmin'
  rstr "/phpmyadmin",
  -- r'/phpMyAdmin'
  rstr "/phpMyAdmin",
  -- r'/pma'
  rstr "/pma",
  -- r'/\.env'
  rstr "/.env",
  -- r'/\.git'
  rstr "/.git",
  -- r'/config\.json'
  rstr "/config.json",
  -- r'/\.aws'
  rstr "/.aws",
  -- r'/\.ssh'
  rstr "/.ssh",
  -- r'/admin'
  rstr "/admin",
  -- r'/administrator'
  rstr "/administrator",
  -- r'/manager'
  rstr "/manager",
  -- r'/console'
  rstr "/console",
  -- r'\.bak$'
  rcat [rstr ".bak", .eol],
  -- r'\.backup$'
  rcat [rstr ".backup", .eol],
  -- r'\.sql$'
  rcat [rstr ".sql", .eol],
  -- r'\.tar\.gz$'
  rcat [rstr ".tar.gz", .eol],
  -- r'\.zip$'
  rcat [rstr ".zip", .eol],
  -- r'/api/v\d+/swagger'
  rcat [rstr "/api/v", rplus rdigit, rstr "/swagger"],
  -- r'/swagger'
  rstr "/swagger",
  -- r'/actuator'
  rstr "/actuator",
  -- r'/metrics'
  rstr "/metrics",
  -- r'/debug'
  rstr "/debug",
  -- r'/cgi-bin'
  rstr "/cgi-bin",
  -- r'/shell'
  rstr "/shell",
  -- r'/cmd'
  rstr "/cmd",
  -- r'/eval'
  rstr "/eval",
  -- r'/exec'
  rstr "/exec"
]

/-- `is_bot_scanner_request` (`log_analyzer.py` lines 77-82). -/
def is_bot_scanner_request (log_message : String) : Bool :=
  BOT_SCANNER_PATHS.any (fun p => rsearch true p log_message)

/-- `LogAnalyzer.PATTERNS` compiled with `re.IGNORECASE` as in
`LogAnalyzer.__init__` (`log_analyzer.py` lines 89-247): each entry is the
compiled regex paired with its `ErrorPattern` record (whose `pattern` field is
the original regex source string). -/
def LogAnalyzer_compiled : List (Regex × ErrorPattern) := [
  -- PostgreSQL patterns
  (rcat [rstr "FATAL:", rplus rspace,
     ralt [rstr "the database system is", rstr "password authentication failed"]],
   { pattern := "FATAL:\\s+(?:the database system is|password authentication failed)",
     level := .critical, category := "database",
     description := "PostgreSQL authentication or startup failure",
     suggested_action := "Check PostgreSQL credentials and container health. Run: docker compose logs postgres",
     services := some ["postgres"] }),
  (rcat [rstr "ERROR:", rplus rspace, ralt [rstr "relation", rstr "column", rstr "table"],
     rplus rspace, rchr '"', rplus (.cls true [.chr '"']), rchr '"', rplus rspace,
     ralt [rstr "does not exist", rstr "already exists"]],
   { pattern := "ERROR:\\s+(?:relation|column|table)\\s+\"[^\"]+\"\\s+(?:does not exist|already exists)",
     level := .error, category := "database",
     description := "Database schema error - missing or duplicate object",
     suggested_action := "Run database migrations or check schema definitions",
     services := some ["postgres", "hasura"] }),
  (rcat [rstr "FATAL:", rplus rspace, rstr "too many connections"],
   { pattern := "FATAL:\\s+too many connections",
     level := .critical, category := "database",
     description := "PostgreSQL connection pool exhausted",
     suggested_action := "Increase max_connections or investigate connection leaks",
     services := some ["postgres"] }),
  (rstr "collation version mismatch",
   { pattern := "collation version mismatch",
     level := .warning, category := "database",
     description := "PostgreSQL collation version mismatch",
     suggested_action := "Run REINDEX DATABASE and ALTER DATABASE REFRESH COLLATION VERSION",
     services := some ["postgres"] }),
  -- Hasura patterns
  (ralt [rstr "inconsistent object", rstr "metadata is inconsistent"],
   { pattern := "inconsistent object|metadata is inconsistent",
     level := .error, category := "graphql",
     description := "Hasura metadata inconsistency",
     suggested_action := "Run Hasura console and reload metadata. Check database schema changes.",
     services := some ["hasura"] }),
  (rcat [rstr "JWT", .star .dot, ralt [rstr "expired", rstr "invalid", rstr "malformed"]],
   { pattern := "JWT.*(?:expired|invalid|malformed)",
     level := .error, category := "auth",
     description := "JWT authentication failure",
     suggested_action := "Check JWT secret configuration matches between services",
     services := some ["hasura", "supabase-auth"] }),
  -- n8n patterns
  (rcat [rstr "Workflow", rplus rspace, ropt (rcat [rstr "execution", rplus rspace]),
     rstr "failed"],
   { pattern := "Workflow\\s+(?:execution\\s+)?failed",
     level := .warning, category := "workflow",
     description := "n8n workflow execution failed",
     suggested_action := "Check workflow logs for specific error. Review node configurations.",
     services := some ["n8n"] }),
  (ralt [rstr "ECONNREFUSED", rstr "Connection refused"],
   { pattern := "ECONNREFUSED|Connection refused",
     level := .error, category := "network",
     description := "Connection refused to dependent service",
     suggested_action := "Check if dependent service is running. Verify network configuration.",
     services := some ["n8n"] }),
  (rcat [rstr "credential", .star .dot,
     ralt [rstr "not found", rstr "invalid", rstr "missing"]],
   { pattern := "credential.*(?:not found|invalid|missing)",
     level := .error, category := "credentials",
     description := "n8n credential not found or invalid",
     suggested_action := "Re-configure credentials in n8n. Check API keys/tokens.",
     services := some ["n8n"] }),
  -- Supabase Auth patterns
  (rcat [rstr "GoTrue", .star .dot, ralt [rstr "error", rstr "failed"]],
   { pattern := "GoTrue.*(?:error|failed)",
     level := .error, category := "auth",
     description := "Supabase Auth (GoTrue) error",
     suggested_action := "Check GoTrue configuration and database connection",
     services := some ["supabase-auth"] }),
  (rcat [rstr "OAuth", .star .dot, ralt [rstr "failed", rstr "error"]],
   { pattern := "OAuth.*(?:failed|error)",
     level := .error, category := "auth",
     description := "OAuth authentication failure",
     suggested_action := "Verify OAuth provider credentials (GitHub client ID/secret)",
     services := some ["supabase-auth"] }),
  -- Embedding service patterns
  (ralt [rcat [rstr "CUDA", .star .dot, rstr "error"],
     rcat [rstr "GPU", .star .dot, ralt [rstr "not available", rstr "out of memory"]]],
   { pattern := "CUDA.*error|GPU.*(?:not available|out of memory)",
     level := .error, category := "gpu",
     description := "GPU/CUDA error in embedding service",
     suggested_action := "Check GPU availability. May need to restart service or reduce batch size.",
     services := some ["embedding-service"] }),
  (rcat [rstr "model", .star .dot, ralt [rstr "not found", rstr "failed to load"]],
   { pattern := "model.*(?:not found|failed to load)",
     level := .critical, category := "model",
     description := "ML model loading failure",
     suggested_action := "Check model path and download. Verify disk space.",
     services := some ["embedding-service"] }),
  -- Generic patterns (apply to all services)
  (ralt [rstr "OOM", rstr "Out of memory", rstr "Cannot allocate memory"],
   { pattern := "OOM|Out of memory|Cannot allocate memory",
     level := .critical, category := "resources",
     description := "Out of memory condition",
     suggested_action := "Increase container memory limits or investigate memory leak" }),
  (ralt [rcat [rstr "disk", .star .dot, ralt [rstr "full", rstr "space"]],
     rstr "No space left on device"],
   { pattern := "disk.*(?:full|space)|No space left on device",
     level := .critical, category := "resources",
     description := "Disk space exhausted",
     suggested_action := "Clear old logs/data. Run docker system prune. Increase disk." }),
  (ralt [rstr "SIGTERM", rstr "SIGKILL", rstr "killed"],
   { pattern := "SIGTERM|SIGKILL|killed",
     level := .warning, category := "process",
     description := "Process was terminated by signal",
     suggested_action := "Check if intentional. May indicate OOM killer or manual intervention." }),
  (ralt [rstr "timeout", rstr "timed out", rstr "deadline exceeded"],
   { pattern := "timeout|timed out|deadline exceeded",
     level := .warning, category := "performance",
     description := "Operation timeout",
     suggested_action := "Check service performance. May need to increase timeout or optimize queries." }),
  (ralt [rstr "rate limit", rstr "too many requests", rstr "429"],
   { pattern := "rate limit|too many requests|429",
     level := .warning, category := "rate_limit",
     description := "Rate limit exceeded",
     suggested_action := "Reduce request frequency or increase rate limits" })
]

/-- `LogAnalyzer.analyze_entry` (`log_analyzer.py` lines 249-265).  The service
filter mirrors Python truthiness: `pattern.services and entry.service not in
pattern.services` skips only when `services` is a non-empty list not containing
the entry's service. -/
def analyze_entry (entry : LogEntry) : List ErrorPattern :=
  if is_bot_scanner_request entry.raw then []
  else
    LogAnalyzer_compiled.filterMap (fun cp =>
      if (match cp.2.services with
          | some ss => !ss.isEmpty && !ss.contains entry.service
          | none => false) then
        none
      else if rsearch true cp.1 entry.raw then some cp.2
      else none)

/-! ### `analyze_logs` / `get_most_critical`

Python `dict`s preserve insertion order; we model the three dicts of
`analyze_logs` as association lists where updating an existing key keeps its
position and a new key is appended at the end. -/

/-- `m.get(k)` on an insertion-ordered dict. -/
def alGet? {α : Type} (m : List (String × α)) (k : String) : Option α :=
  (m.find? (fun kv => kv.1 == k)).map (·.2)

/-- `m[k] = v` on an insertion-ordered dict. -/
def alSet {α : Type} (m : List (String × α)) (k : String) (v : α) :
    List (String × α) :=
  match m with
  | [] => [(k, v)]
  | kv :: rest => if kv.1 == k then (k, v) :: rest else kv :: alSet rest k v

/-- The local state of the `analyze_logs` loop (`log_analyzer.py` lines
289-291): `pattern_counts`, `pattern_samples` (pattern plus sample list per
key) and `category_counts`. -/
structure AnState where
  pattern_counts : List (String × Nat)
  pattern_samples : List (String × (ErrorPattern × List LogEntry))
  category_counts : List (String × Nat)
  deriving Repr, DecidableEq

/-- The body of `for pattern in matched:` (`log_analyzer.py` lines 296-306).
The source first creates the samples slot with an empty list when the key is
new and then appends (0 < 3 always holds), which is the `none` branch here. -/
def processMatch (entry : LogEntry) (st : AnState) (pattern : ErrorPattern) :
    AnState :=
  let key := pattern.pattern
  let counts := alSet st.pattern_counts key ((alGet? st.pattern_counts key).getD 0 + 1)
  let samples :=
    match alGet? st.pattern_samples key with
    | none => alSet st.pattern_samples key (pattern, [entry])
    | some (q, ss) =>
      if ss.length < 3 then alSet st.pattern_samples key (q, ss ++ [entry])
      else st.pattern_samples
  let cats := alSet st.category_counts pattern.category
    ((alGet? st.category_counts pattern.category).getD 0 + 1)
  ⟨counts, samples, cats⟩

/-- One iteration of `for entry in entries:` (`log_analyzer.py` lines 293-306). -/
def processEntry (st : AnState) (entry : LogEntry) : AnState :=
  (analyze_entry entry).foldl (processMatch entry) st

/-- One element of the `patterns_matched` result list. -/
structure PatternMatch where
  pattern : ErrorPattern
  count : Nat
  sample_entries : List LogEntry
  deriving Repr, DecidableEq

/-- The dict returned by `analyze_logs` (`log_analyzer.py` lines 308-320). -/
structure Analysis where
  total_entries : Nat
  errors_found : Nat
  patterns_matched : List PatternMatch
  by_category : List (String × Nat)
  deriving Repr, DecidableEq

/-- `LogAnalyzer.analyze_logs` (`log_analyzer.py` lines 267-320).
`pattern_counts[key]` in the comprehension cannot fail (every samples key was
counted); `getD 0` stands in for the lookup. -/
def analyze_logs (entries : List LogEntry) : Analysis :=
  let st := entries.foldl processEntry ⟨[], [], []⟩
  { total_entries := entries.length,
    errors_found := (st.pattern_counts.map (·.2)).sum,
    patterns_matched := st.pattern_samples.map (fun kv =>
      { pattern := kv.2.1,
        count := (alGet? st.pattern_counts kv.1).getD 0,
        sample_entries := kv.2.2 }),
    by_category := st.category_counts }

/-- The `level_order` dict of `get_most_critical` (`log_analyzer.py` lines
330-335); `.get(..., 99)` never falls through since the dict is total on
`AlertLevel`. -/
def level_order (l : AlertLevel) : Nat :=
  match l with
  | .critical => 0
  | .error => 1
  | .warning => 2
  | .info => 3

/-- The comparison realised by Python's `sorted` with key
`(level_order[p.level], -count)`. -/
def pmLe (a b : PatternMatch) : Bool :=
  level_order a.pattern.level < level_order b.pattern.level
  || (level_order a.pattern.level == level_order b.pattern.level
      && b.count ≤ a.count)

/-- `pmLe` as a relation, for `List.insertionSort`. -/
def pmRel (a b : PatternMatch) : Prop := pmLe a b = true

instance : DecidableRel pmRel := fun a b => instDecidableEqBool (pmLe a b) true

instance : IsTotal PatternMatch pmRel where
  total a b := by
    simp only [pmRel, pmLe, Bool.or_eq_true, Bool.and_eq_true, decide_eq_true_eq,
      beq_iff_eq]
    omega

instance : IsTrans PatternMatch pmRel where
  trans a b c := by
    simp only [pmRel, pmLe, Bool.or_eq_true, Bool.and_eq_true, decide_eq_true_eq,
      beq_iff_eq]
    omega

/-- `LogAnalyzer.get_most_critical` (`log_analyzer.py` lines 322-342).
Python's `sorted` is the stable sort by the key comparison `pmLe`; since a
total preorder has exactly one stable sorted arrangement, it equals
`List.insertionSort pmRel` (Mathlib's insertion sort is stable). -/
def get_most_critical (entries : List LogEntry) : Option ErrorPattern :=
  let analysis := analyze_logs entries
  if analysis.patterns_matched.isEmpty then none
  else
    let sorted_patterns := analysis.patterns_matched.insertionSort pmRel
    sorted_patterns.head?.map (·.pattern)

/-! ## `src/_python_backup/dozor/collectors/logs.py`

`LogCollector._parse_logs` and its helpers.  The three `strptime` format
strings are modelled by explicit digit parsers below, faithful to Python
`datetime.strptime`: numeric directives accept the digit counts `strptime`
accepts on these formats, whitespace in the format matches a run of
whitespace, month/day/hour/minute/second ranges are validated (days against
the month length, with leap years), `%b` matches the English month
abbreviation case-insensitively, and a missing year defaults to 1900. -/

/-- Identifies which `strptime` format string accompanies a timestamp regex. -/
inductive TsFormat where
  /-- `'%Y-%m-%dT%H:%M:%S'` -/
  | isoT
  /-- `'%Y-%m-%d %H:%M:%S'` -/
  | composeSpace
  /-- `'%b %d %H:%M:%S'` -/
  | syslog
  deriving Repr, DecidableEq

/-- `LogCollector.TIMESTAMP_PATTERNS` (`logs.py` lines 21-28).  Each regex is
anchored with `^` and its group 1 spans the whole match, so the matched
substring is positions 0..end of the reported match. -/
def TIMESTAMP_PATTERNS : List (Regex × TsFormat) := [
  -- r'^(\d{4}-\d{2}-\d{2}T\d{2}:\d{2}:\d{2}(?:\.\d+)?(?:Z|[+-]\d{2}:?\d{2})?)'
  (rcat [.bol, rrep rdigit 4, rchr '-', rrep rdigit 2, rchr '-', rrep rdigit 2,
    rchr 'T', rrep rdigit 2, rchr ':', rrep rdigit 2, rchr ':', rrep rdigit 2,
    ropt (rcat [rchr '.', rplus rdigit]),
    ropt (ralt [rchr 'Z',
      rcat [.cls false [.chr '+', .chr '-'], rrep rdigit 2, ropt (rchr ':'),
        rrep rdigit 2]])],
   .isoT),
  -- r'^(\d{4}-\d{2}-\d{2}\s+\d{2}:\d{2}:\d{2})'
  (rcat [.bol, rrep rdigit 4, rchr '-', rrep rdigit 2, rchr '-', rrep rdigit 2,
    rplus rspace, rrep rdigit 2, rchr ':', rrep rdigit 2, rchr ':', rrep rdigit 2],
   .composeSpace),
  -- r'^([A-Z][a-z]{2}\s+\d{1,2}\s+\d{2}:\d{2}:\d{2})'
  (rcat [.bol, .cls false [.range 'A' 'Z'], rrep (.cls false [.range 'a' 'z']) 2,
    rplus rspace, rrange rdigit 1 2, rplus rspace, rrep rdigit 2, rchr ':',
    rrep rdigit 2, rchr ':', rrep rdigit 2],
   .syslog)
]

/-- The three cleanup substitutions of `_extract_timestamp` (`logs.py` lines
143-145); each is `$`-anchored so it matches at most once and
`re.sub` equals removing the single match.  These subs are case-sensitive
(no flag is passed). -/
def tsCleanup (ts : String) : String :=
  let ts := subFirst false (rcat [rchr 'Z', .eol]) ts
  let ts := subFirst false
    (rcat [.cls false [.chr '+', .chr '-'], rrep rdigit 2, ropt (rchr ':'),
      rrep rdigit 2, .eol]) ts
  subFirst false (rcat [rchr '.', rplus rdigit, .eol]) ts

/-- Number of days in a month (`datetime` validation, with leap years). -/
def daysInMonth (year month : Nat) : Nat :=
  if month == 2 then
    if year % 4 == 0 && (year % 100 != 0 || year % 400 == 0) then 29 else 28
  else if month == 4 || month == 6 || month == 9 || month == 11 then 30
  else 31

/-- Range validation performed by the `datetime` constructor inside
`strptime`. -/
def validTimestamp (t : Timestamp) : Bool :=
  1 ≤ t.year && t.year ≤ 9999 && 1 ≤ t.month && t.month ≤ 12
  && 1 ≤ t.day && t.day ≤ daysInMonth t.year t.month
  && t.hour ≤ 23 && t.minute ≤ 59 && t.second ≤ 59

/-- Greedily take up to `n` leading digits, returning their value, count and
the rest (how `strptime` consumes a numeric directive of width ≤ `n`). -/
def takeDigits (n : Nat) (s : List Char) (acc : Nat) (cnt : Nat) :
    Nat × Nat × List Char :=
  match n, s with
  | 0, s => (acc, cnt, s)
  | _ + 1, [] => (acc, cnt, [])
  | n + 1, c :: rest =>
    if c.isDigit then takeDigits n rest (acc * 10 + (c.toNat - 48)) (cnt + 1)
    else (acc, cnt, c :: rest)

/-- English month abbreviations, matched case-insensitively by `%b`. -/
def monthAbbrevs : List String :=
  ["jan", "feb", "mar", "apr", "may", "jun", "jul", "aug", "sep", "oct", "nov", "dec"]

/-- Lower-case a list of characters (ASCII). -/
def lowerChars (s : List Char) : List Char := s.map Char.toLower

/-- Parse a `%b` month name prefix, returning the month number and the rest. -/
def parseMonthAbbrev (s : List Char) : Option (Nat × List Char) :=
  match s with
  | c1 :: c2 :: c3 :: rest =>
    let w := String.mk (lowerChars [c1, c2, c3])
    match monthAbbrevs.indexOf? w with
    | some idx => some (idx + 1, rest)
    | none => none
  | _ => none

/-- Expect one literal character. -/
def expectChar (c : Char) (s : List Char) : Option (List Char) :=
  match s with
  | d :: rest => if d == c then some rest else none
  | [] => none

/-- Expect a run of one or more whitespace characters (`strptime` translates
whitespace in the format to `\s+`). -/
def expectSpaces (s : List Char) : Option (List Char) :=
  match s with
  | c :: rest => if pySpaceChar c then some (rest.dropWhile pySpaceChar) else none
  | [] => none

/-- Parse `%H:%M:%S`. -/
def parseHMS (s : List Char) : Option (Nat × Nat × Nat × List Char) :=
  let (h, hc, s) := takeDigits 2 s 0 0
  if hc == 0 then none else
  match expectChar ':' s with
  | none => none
  | some s =>
    let (m, mc, s) := takeDigits 2 s 0 0
    if mc == 0 then none else
    match expectChar ':' s with
    | none => none
    | some s =>
      let (sec, sc, s) := takeDigits 2 s 0 0
      if sc == 0 then none else some (h, m, sec, s)

/-- `datetime.strptime(ts, fmt)` for the three formats, as an `Option`
(`None` models the `ValueError` caught in `_extract_timestamp`).  The whole
input must be consumed ("unconverted data remains" otherwise). -/
def strptime (ts : String) (fmt : TsFormat) : Option Timestamp :=
  let s := ts.data
  let result : Option Timestamp :=
    match fmt with
    | .isoT =>
      let (y, yc, s) := takeDigits 4 s 0 0
      if yc == 0 then none else
      match expectChar '-' s with
      | none => none
      | some s =>
        let (mo, moc, s) := takeDigits 2 s 0 0
        if moc == 0 then none else
        match expectChar '-' s with
        | none => none
        | some s =>
          let (d, dc, s) := takeDigits 2 s 0 0
          if dc == 0 then none else
          match expectChar 'T' s with
          | none => none
          | some s =>
            match parseHMS s with
            | some (h, mi, sec, []) => some ⟨y, mo, d, h, mi, sec⟩
            | _ => none
    | .composeSpace =>
      let (y, yc, s) := takeDigits 4 s 0 0
      if yc == 0 then none else
      match expectChar '-' s with
      | none => none
      | some s =>
        let (mo, moc, s) := takeDigits 2 s 0 0
        if moc == 0 then none else
        match expectChar '-' s with
        | none => none
        | some s =>
          let (d, dc, s) := takeDigits 2 s 0 0
          if dc == 0 then none else
          match expectSpaces s with
          | none => none
          | some s =>
            match parseHMS s with
            | some (h, mi, sec, []) => some ⟨y, mo, d, h, mi, sec⟩
            | _ => none
    | .syslog =>
      match parseMonthAbbrev s with
      | none => none
      | some (mo, s) =>
        match expectSpaces s with
        | none => none
        | some s =>
          let (d, dc, s) := takeDigits 2 s 0 0
          if dc == 0 then none else
          match expectSpaces s with
          | none => none
          | some s =>
            match parseHMS s with
            | some (h, mi, sec, []) => some ⟨1900, mo, d, h, mi, sec⟩
            | _ => none
  match result with
  | some t => if validTimestamp t then some t else none
  | none => none

/-- `LogCollector._extract_timestamp` (`logs.py` lines 136-151): first
timestamp regex that `re.search`es (with `IGNORECASE`) wins; its matched text
is cleaned up and fed to `strptime`; a `ValueError` falls through to the next
pattern. -/
def extract_timestamp (line : String) : Option Timestamp :=
  TIMESTAMP_PATTERNS.findSome? (fun pf =>
    match firstMatch? true pf.1 line with
    | none => none
    | some (i, j) =>
      let ts_str := String.mk ((line.data.drop i).take (j - i))
      strptime (tsCleanup ts_str) pf.2)

/-- `LogCollector.LEVEL_PATTERNS` (`logs.py` lines 31-53). -/
def LEVEL_PATTERNS : List (Regex × String) := [
  -- r'\b(ERROR|FATAL|CRITICAL)\b'
  (rcat [.wb, ralt [rstr "ERROR", rstr "FATAL", rstr "CRITICAL"], .wb], "ERROR"),
  -- r'\b(WARN|WARNING)\b'
  (rcat [.wb, ralt [rstr "WARN", rstr "WARNING"], .wb], "WARNING"),
  -- r'\b(INFO)\b'
  (rcat [.wb, rstr "INFO", .wb], "INFO"),
  -- r'\b(DEBUG|TRACE)\b'
  (rcat [.wb, ralt [rstr "DEBUG", rstr "TRACE"], .wb], "DEBUG"),
  -- r'\bERROR:'
  (rcat [.wb, rstr "ERROR:"], "ERROR"),
  -- r'\bWARNING:'
  (rcat [.wb, rstr "WARNING:"], "WARNING"),
  -- r'\bLOG:'
  (rcat [.wb, rstr "LOG:"], "INFO"),
  -- r'"level":\s*"error"'
  (rcat [rstr "\"level\":", .star rspace, rstr "\"error\""], "ERROR"),
  -- r'"level":\s*"warn"'
  (rcat [rstr "\"level\":", .star rspace, rstr "\"warn\""], "WARNING"),
  -- r'"level":\s*"info"'
  (rcat [rstr "\"level\":", .star rspace, rstr "\"info\""], "INFO"),
  -- r'Permission denied'
  (rstr "Permission denied", "ERROR"),
  -- r'cannot create'
  (rstr "cannot create", "ERROR"),
  -- r'No such file or directory'
  (rstr "No such file or directory", "ERROR"),
  -- r'command not found'
  (rstr "command not found", "ERROR"),
  -- r'Segmentation fault'
  (rstr "Segmentation fault", "ERROR"),
  -- r'Killed'
  (rstr "Killed", "ERROR"),
  -- r'OOM'
  (rstr "OOM", "ERROR"),
  -- r'out of memory'
  (rstr "out of memory", "ERROR")
]

/-- `LogCollector._detect_level` (`logs.py` lines 153-160): first level
pattern that `re.search`es (with `IGNORECASE`) wins, default `'INFO'`. -/
def detect_level (line : String) : String :=
  match LEVEL_PATTERNS.findSome? (fun pl =>
    if rsearch true pl.1 line then some pl.2 else none) with
  | some level => level
  | none => "INFO"

/-- The compose-prefix regex `r'^[\w-]+-\d+\s*\|\s*(.*)$'` split at its
capture group: the part before `(.*)$`. -/
def composePrefixHead : Regex :=
  rcat [.bol, rplus (.cls false [.range 'a' 'z', .range 'A' 'Z', .range '0' '9',
    .chr '_', .chr '-']), rchr '-', rplus rdigit, .star rspace, rchr '|',
    .star rspace]

/-- `LogCollector._strip_compose_prefix` (`logs.py` lines 128-134).  On a
newline-free line, `(.*)$` matches from any position, so the whole pattern
`re.match`es iff its head part matches at 0, and group 1 is the text from the
head's backtracking-preferred end to the end of the line. -/
def strip_compose_prefix (line : String) : String :=
  match (Regex.ends false line.data composePrefixHead 0).head? with
  | some j => String.mk (line.data.drop j)
  | none => line

/-- The level-prefix substitution pattern of `_extract_message`
(`logs.py` line 169): `r'^[\[\(]?(ERROR|WARN|WARNING|INFO|DEBUG|LOG|FATAL)[\]\)]?:?\s*'`,
applied with `IGNORECASE`. -/
def levelPrefixRe : Regex :=
  rcat [.bol, ropt (.cls false [.chr '[', .chr '(']),
    ralt [rstr "ERROR", rstr "WARN", rstr "WARNING", rstr "INFO", rstr "DEBUG",
      rstr "LOG", rstr "FATAL"],
    ropt (.cls false [.chr ']', .chr ')']), ropt (rchr ':'), .star rspace]

/-- `LogCollector._extract_message` (`logs.py` lines 162-171).  Note the
final `return line.strip() or line`: the fallback is the line *after* the
prefix substitutions, not the collector's input line. -/
def extract_message (line : String) : String :=
  let line := TIMESTAMP_PATTERNS.foldl
    (fun l pf => pyStrip (subFirst false pf.1 l)) line
  let line := subFirst true levelPrefixRe line
  if pyStrip line == "" then line else pyStrip line

/-- Python `str.split('\n')` on a character list: `""` gives `[""]`,
a trailing newline yields a trailing empty piece. -/
def splitOnNl : List Char → List (List Char)
  | [] => [[]]
  | c :: rest =>
    match splitOnNl rest, c == '\n' with
    | r, true => [] :: r
    | [], false => [[c]]
    | h :: t, false => (c :: h) :: t

/-- `raw_logs.split('\n')`. -/
def splitLines (raw_logs : String) : List String :=
  (splitOnNl raw_logs.data).map String.mk

/-- `LogCollector._parse_logs` (`logs.py` lines 103-126). -/
def parse_logs (raw_logs : String) (service : String) : List LogEntry :=
  (splitLines raw_logs).filterMap (fun line =>
    if pyStrip line == "" then none
    else
      let clean_line := strip_compose_prefix line
      some { timestamp := extract_timestamp clean_line,
             level := detect_level clean_line,
             message := extract_message clean_line,
             service := service,
             raw := line })

/-! ## `src/_python_backup/dozor/models.py`: `DiagnosticReport` health rollup

`ServiceStatus` is embedded with the fields `_calculate_overall_health`
consumes through `alert_level` (`name`, `state`, `restart_count`,
`error_count`); `Alert` with `level` and its text fields.  The unused
display-only fields (uptime, cpu/memory floats, context, timestamps) do not
influence any claim and are omitted. -/

/-- `ServiceStatus` (`models.py` lines 47-59), restricted to the fields read
by `alert_level`. -/
structure ServiceStatus where
  name : String
  state : ContainerState
  restart_count : Nat := 0
  error_count : Nat := 0
  deriving Repr, DecidableEq

/-- `ServiceStatus.alert_level` (`models.py` lines 69-77). -/
def ServiceStatus.alert_level (s : ServiceStatus) : AlertLevel :=
  if s.state != .running then .critical
  else if s.restart_count > 0 || s.error_count > 5 then .error
  else if s.error_count > 0 then .warning
  else .info

/-- `Alert` (`models.py` lines 96-105), restricted to the fields the health
rollup and the agent read. -/
structure Alert where
  level : AlertLevel
  service : String
  title : String
  description : String
  suggested_action : String
  deriving Repr, DecidableEq

/-- `DiagnosticReport` (`models.py` lines 143-150). -/
structure DiagnosticReport where
  server : String
  services : List ServiceStatus
  alerts : List Alert
  overall_health : String
  deriving Repr, DecidableEq

/-- `DiagnosticReport._calculate_overall_health` (`models.py` lines 155-178)
as the pure function of the services and alerts it reads. -/
def calculate_overall_health (services : List ServiceStatus) (alerts : List Alert) :
    String :=
  if services.isEmpty && alerts.isEmpty then "unknown"
  else
    let service_critical := services.any (fun s => s.alert_level == .critical)
    let service_errors := services.any (fun s => s.alert_level == .error)
    let service_warnings := services.any (fun s => s.alert_level == .warning)
    let alert_critical := alerts.any (fun a => a.level == .critical)
    let alert_errors := alerts.any (fun a => a.level == .error)
    let alert_warnings := alerts.any (fun a => a.level == .warning)
    if service_critical || alert_critical then "critical"
    else if service_errors || alert_errors then "degraded"
    else if service_warnings || alert_warnings then "warning"
    else "healthy"

/-- `DiagnosticReport.__post_init__` (`models.py` lines 152-153): construction
always runs `_calculate_overall_health`. -/
def DiagnosticReport.create (server : String) (services : List ServiceStatus)
    (alerts : List Alert) : DiagnosticReport :=
  { server := server, services := services, alerts := alerts,
    overall_health := calculate_overall_health services alerts }

/-- `DiagnosticReport._recalculate_health` (`models.py` lines 180-182). -/
def DiagnosticReport.recalculate_health (r : DiagnosticReport) : DiagnosticReport :=
  { r with overall_health := calculate_overall_health r.services r.alerts }

/-- The alert-adding step of `ServerAgent.diagnose` (`agent.py` lines 91-96):
`report.alerts.extend(security_alerts)` followed by
`report._recalculate_health()`. -/
def DiagnosticReport.add_alerts (r : DiagnosticReport) (security_alerts : List Alert) :
    DiagnosticReport :=
  DiagnosticReport.recalculate_health { r with alerts := r.alerts ++ security_alerts }

/-! ## `src/dozor/collectors/security/`: firewall-status memoization (C9)

The slice of `SecurityCollector.check_all` relevant to the firewall cache.
`NetworkSecurityChecker._ufw_status` (`network.py` line 48) memoizes the
parsed `sudo ufw status verbose` result; `check_exposed_ports`,
`check_firewall` and `check_gateway_exposure` each consult it through
`_get_ufw_status` (`network.py` lines 65, 134, 207, 272-307).
`SecurityCollector._get_network_checker` (`security/__init__.py` lines 77-82)
is meant to memoize the checker itself in `self._checkers`, which `__init__`
sets to `{}` once and `check_all` (lines 123-161) never clears — but its
construction call `NetworkSecurityChecker()` (line 81) omits the `transport`
argument that `NetworkSecurityChecker.__init__` (`network.py` line 40)
requires, so it raises `TypeError` before the dict assignment; nothing on the
path from `check_all` (nor `ServerAgent.check_security`, `agent.py` line 219)
catches it, so every audit dies before any firewall-status lookup and the
`'network'` slot is never populated.  The container, auth, API,
reconnaissance and upstream checkers never query the firewall (and are not
reached, `check_network` being the first step of `check_all`).  `live` stands
for the status the transport would report if `sudo ufw status verbose` were
run now; `ufw_queries` counts how many times the transport is actually
asked. -/

/-- The dict built by `_get_ufw_status` (`network.py` lines 291-296). -/
structure UfwStatus where
  installed : Bool
  active : Bool
  allowed_ports : List Nat
  raw_output : String
  deriving Repr, DecidableEq

/-- `NetworkSecurityChecker` state: its `_ufw_status` memo
(`network.py` line 48). -/
structure NetworkSecurityChecker where
  ufw_status : Option UfwStatus
  deriving Repr, DecidableEq

/-- `NetworkSecurityChecker._get_ufw_status` (`network.py` lines 272-307):
returns the cached status if present, otherwise queries the transport once
and caches the result. -/
def NetworkSecurityChecker.get_ufw_status (c : NetworkSecurityChecker)
    (live : UfwStatus) : UfwStatus × NetworkSecurityChecker × Nat :=
  match c.ufw_status with
  | some st => (st, c, 0)
  | none => (live, { ufw_status := some live }, 1)

/-- `SecurityCollector` state: the `'network'` slot of `self._checkers`
(`security/__init__.py` lines 70-82). -/
structure SecurityCollector where
  network_checker : Option NetworkSecurityChecker
  deriving Repr, DecidableEq

/-- The Python `TypeError` raised by `NetworkSecurityChecker()` at
`security/__init__.py` line 81: `__init__` misses its one required positional
argument `transport`. -/
def networkCheckerTypeError : String :=
  "TypeError: NetworkSecurityChecker.__init__() missing 1 required positional argument: transport"

/-- What one `check_all` does to the firewall state: the UFW status the audit
used — or the uncaught exception that aborted it — together with the number of
`sudo ufw status verbose` transport queries performed, and the collector state
afterwards. -/
structure AuditOutcome where
  result : Except String UfwStatus
  ufw_queries : Nat
  collector : SecurityCollector
  deriving Repr

/-- `SecurityCollector._get_network_checker` (`security/__init__.py` lines
77-82).  When the `'network'` slot is already populated it is returned; when
it is empty the source evaluates `NetworkSecurityChecker()`, whose `__init__`
(`network.py` line 40) requires a positional `transport` argument, so the call
raises `TypeError` before anything is assigned into `self._checkers`. -/
def SecurityCollector.get_network_checker (sc : SecurityCollector) :
    Except String (NetworkSecurityChecker × SecurityCollector) :=
  match sc.network_checker with
  | some c => .ok (c, sc)
  | none => .error networkCheckerTypeError

/-- `SecurityCollector.check_network` (`security/__init__.py` lines 189-205),
projected to its firewall-state usage: it first fetches the shared checker —
which raises out of `check_network` when the lazy construction fails — and on
success the three network sub-checks each call `_get_ufw_status` on it. -/
def SecurityCollector.check_network (sc : SecurityCollector) (live : UfwStatus) :
    AuditOutcome :=
  match sc.get_network_checker with
  | .error e => ⟨.error e, 0, sc⟩
  | .ok (checker, sc) =>
    let (st1, checker, n1) := checker.get_ufw_status live
    let (_, checker, n2) := checker.get_ufw_status live
    let (_, checker, n3) := checker.get_ufw_status live
    ⟨.ok st1, n1 + n2 + n3, { sc with network_checker := some checker }⟩

/-- `SecurityCollector.check_all` (`security/__init__.py` lines 123-161),
projected to its firewall-state usage: `check_network` is its first step, only
the network layer touches the UFW status, and no `except` anywhere on the
path (`check_all`, `ServerAgent.check_security`) intercepts an exception
raised there. -/
def SecurityCollector.check_all (sc : SecurityCollector) (live : UfwStatus) :
    AuditOutcome :=
  sc.check_network live

/-! ## Concrete inputs used by the claim instances and witnesses -/

/-- An access-log line produced by a bot scanner probing `/wp-admin`. -/
def wpAdminLine : String :=
  "172.16.0.9 - - [15/Jan/2024] \"GET /wp-admin/setup-config.php HTTP/1.1\" 404 162"

/-- A PostgreSQL authentication-failure log entry. -/
def pgEntry : LogEntry :=
  { timestamp := none, level := "ERROR", message := "m", service := "postgres",
    raw := "FATAL: password authentication failed for user \"bob\"" }

/-- The regex source string of the PostgreSQL authentication-failure pattern
(the first entry of `LogAnalyzer.PATTERNS`). -/
def pgAuthKey : String :=
  "FATAL:\\s+(?:the database system is|password authentication failed)"

/-- A web-service log entry whose raw line is the `/wp-admin` scanner probe. -/
def wpEntry : LogEntry :=
  { timestamp := none, level := "INFO", message := "m", service := "web",
    raw := wpAdminLine }

/-- An n8n connection-refused log entry. -/
def cnEntry : LogEntry :=
  { timestamp := none, level := "ERROR", message := "m", service := "n8n",
    raw := "Connection refused" }

/-- The `ErrorPattern` record the catalog holds for
`ECONNREFUSED|Connection refused`. -/
def cnPattern : ErrorPattern :=
  { pattern := "ECONNREFUSED|Connection refused",
    level := .error, category := "network",
    description := "Connection refused to dependent service",
    suggested_action := "Check if dependent service is running. Verify network configuration.",
    services := some ["n8n"] }

/-- One CRITICAL match plus one-hundred ERROR matches. -/
def C4_entries : List LogEntry := pgEntry :: List.replicate 100 cnEntry

/-- A UFW status as a first audit would observe it. -/
def ufwA : UfwStatus :=
  { installed := true, active := true, allowed_ports := [22, 80],
    raw_output := "Status: active" }

/-- A different UFW status, live at the time of a second audit. -/
def ufwB : UfwStatus :=
  { installed := true, active := false, allowed_ports := [],
    raw_output := "Status: inactive" }

/-- A local-mode server configuration. -/
def localCfg : ServerConfig :=
  { host := "local", user := "root", port := 22, ssh_key := none, timeout := 30,
    compose_path := "~/app" }

/-- A spawn model whose subprocess always succeeds (used to witness that a
rejected command's result does not depend on the subprocess). -/
def happyRun : List String → SpawnOutcome :=
  fun _ => .completed "ok" "" 0

/-! ## Theorems -/

/-- `pmLe` is reflexive. -/
theorem pmLe_refl (a : PatternMatch) : pmLe a a = true := by
  simp [pmLe]

/-- C1: `is_command_allowed` accepts exactly the whitespace-stripped commands
that match no blocked pattern and at least one allowed pattern; any command
matching a blocked pattern is rejected with the generic blocked reason even if
it also matches an allowed pattern (blocked patterns are tested first);
`"docker ps; rm -rf /"` is rejected; a command matching zero patterns of
either kind — including the empty command — is rejected with the reason
containing `"not in allowlist"`. -/
theorem C1_command_policy (command : String) :
    ((is_command_allowed command).1 = true ↔
      ((∀ p ∈ BLOCKED_PATTERNS, rsearch true p (pyStrip command) = false) ∧
        ∃ p ∈ ALLOWED_COMMANDS, rmatch false p (pyStrip command) = true)) ∧
    ((∃ p ∈ BLOCKED_PATTERNS, rsearch true p (pyStrip command) = true) →
      is_command_allowed command = (false, "Command contains blocked pattern")) ∧
    ((∀ p ∈ BLOCKED_PATTERNS, rsearch true p (pyStrip command) = false) →
      (∀ p ∈ ALLOWED_COMMANDS, rmatch false p (pyStrip command) = false) →
      is_command_allowed command =
        (false,
          "Command not in allowlist. Only read-only diagnostic commands are permitted.")) ∧
    is_command_allowed "docker ps; rm -rf /" =
      (false, "Command contains blocked pattern") ∧
    (∃ p ∈ ALLOWED_COMMANDS, rmatch false p (pyStrip "docker ps `id`") = true) ∧
    is_command_allowed "docker ps `id`" =
      (false, "Command contains blocked pattern") ∧
    is_command_allowed "" =
      (false,
        "Command not in allowlist. Only read-only diagnostic commands are permitted.") ∧
    "Command not in allowlist. Only read-only diagnostic commands are permitted." =
      "Command " ++ "not in allowlist" ++
        ". Only read-only diagnostic commands are permitted." := by
  have hb_eq : BLOCKED_PATTERNS.any (fun p => rsearch true p (pyStrip command)) = true →
      is_command_allowed command = (false, "Command contains blocked pattern") := by
    intro hb
    simp only [is_command_allowed]
    rw [if_pos hb]
  have hab_eq : BLOCKED_PATTERNS.any (fun p => rsearch true p (pyStrip command)) = false →
      ALLOWED_COMMANDS.any (fun p => rmatch false p (pyStrip command)) = true →
      is_command_allowed command = (true, "Command matches allowed pattern") := by
    intro hb ha
    simp only [is_command_allowed]
    rw [if_neg (by simp [hb]), if_pos ha]
  have hnone_eq : BLOCKED_PATTERNS.any (fun p => rsearch true p (pyStrip command)) = false →
      ALLOWED_COMMANDS.any (fun p => rmatch false p (pyStrip command)) = false →
      is_command_allowed command =
        (false,
          "Command not in allowlist. Only read-only diagnostic commands are permitted.") := by
    intro hb ha
    simp only [is_command_allowed]
    rw [if_neg (by simp [hb]), if_neg (by simp [ha])]
  refine ⟨?_, ?_, ?_, by decide, by decide, by decide, by decide, by decide⟩
  · constructor
    · intro htrue
      cases hb : BLOCKED_PATTERNS.any (fun p => rsearch true p (pyStrip command)) with
      | true =>
        rw [hb_eq hb] at htrue
        exact absurd htrue (by simp)
      | false =>
        cases ha : ALLOWED_COMMANDS.any (fun p => rmatch false p (pyStrip command)) with
        | true =>
          exact ⟨fun p hp => by simpa using List.any_eq_false.mp hb p hp,
            List.any_eq_true.mp ha⟩
        | false =>
          rw [hnone_eq hb ha] at htrue
          exact absurd htrue (by simp)
    · rintro ⟨hallb, hex⟩
      have hb : BLOCKED_PATTERNS.any (fun p => rsearch true p (pyStrip command)) = false :=
        List.any_eq_false.mpr (fun p hp => by rw [hallb p hp]; simp)
      rw [hab_eq hb (List.any_eq_true.mpr hex)]
  · intro hex
    exact hb_eq (List.any_eq_true.mpr hex)
  · intro hallb halla
    exact hnone_eq
      (List.any_eq_false.mpr (fun p hp => by rw [hallb p hp]; simp))
      (List.any_eq_false.mpr (fun p hp => by rw [halla p hp]; simp))

/-- Witness for C1 at concrete commands. -/
theorem C1_command_policy_witness :
    (is_command_allowed "docker ps").1 = true ∧
    is_command_allowed "cat /etc/hosts" =
      (false,
        "Command not in allowlist. Only read-only diagnostic commands are permitted.") := by
  refine ⟨(C1_command_policy "docker ps").1.mpr ⟨by decide, by decide⟩, ?_⟩
  exact (C1_command_policy "cat /etc/hosts").2.2.1 (by decide) (by decide)

/-- C2: in local mode with validation enabled, a policy-rejected command
yields `success=false`, `return_code=-1`, stderr containing the rejection
reason, and the result does not depend on the subprocess runner (no subprocess
is invoked). -/
theorem C2_reject_no_subprocess (cfg : ServerConfig) (command : String)
    (timeout : Option Nat) (run : List String → SpawnOutcome)
    (hlocal : cfg.is_local = true)
    (hrej : (is_command_allowed command).1 = false) :
    SSHTransport.execute cfg command timeout false run =
      { stdout := "",
        stderr := "Command blocked by security policy: " ++ (is_command_allowed command).2,
        return_code := -1, command := command, success := false } ∧
    (∃ pre post, (SSHTransport.execute cfg command timeout false run).stderr =
      pre ++ (is_command_allowed command).2 ++ post) ∧
    ∀ run2 : List String → SpawnOutcome,
      SSHTransport.execute cfg command timeout false run =
        SSHTransport.execute cfg command timeout false run2 := by
  have hmain : ∀ run' : List String → SpawnOutcome,
      SSHTransport.execute cfg command timeout false run' =
        { stdout := "",
          stderr := "Command blocked by security policy: " ++ (is_command_allowed command).2,
          return_code := -1, command := command, success := false } := by
    intro run'
    unfold SSHTransport.execute
    rcases hic : is_command_allowed command with ⟨a, r⟩
    rw [hic] at hrej
    simp only at hrej
    subst hrej
    simp [hlocal, hic]
  refine ⟨hmain run, ⟨"Command blocked by security policy: ", "", ?_⟩,
    fun run2 => (hmain run).trans (hmain run2).symm⟩
  rw [hmain run]
  simp

/-- Witness for C2: a blocked command in local mode, with a subprocess model
that would have succeeded had it been called. -/
theorem C2_reject_no_subprocess_witness :
    SSHTransport.execute localCfg "rm -rf /tmp/x" none false happyRun =
      { stdout := "",
        stderr := "Command blocked by security policy: Command contains blocked pattern",
        return_code := -1, command := "rm -rf /tmp/x", success := false } := by
  exact (C2_reject_no_subprocess localCfg "rm -rf /tmp/x" none happyRun
    (by decide) (by decide)).1.trans (by decide)

/-- A log entry with no pattern matches leaves the aggregation state of
`analyze_logs` unchanged. -/
theorem processEntry_of_no_match {e : LogEntry} (h : analyze_entry e = [])
    (st : AnState) : processEntry st e = st := by
  unfold processEntry
  rw [h]
  rfl

/-- C3: any entry whose raw line matches a bot-scanner signature produces no
matches in `analyze_entry`, and inserting such an entry anywhere in an entry
list changes neither `errors_found` nor the per-pattern records nor the
category tallies of `analyze_logs`; the concrete `/wp-admin` probe line is
classified as scanner noise; the concrete Postgres `FATAL: password
authentication failed` entry is not noise and matches exactly the Postgres
authentication-failure pattern at CRITICAL severity. -/
theorem C3_scanner_noise :
    (∀ entry : LogEntry, is_bot_scanner_request entry.raw = true →
      analyze_entry entry = []) ∧
    (∀ (es₁ es₂ : List LogEntry) (e : LogEntry),
      is_bot_scanner_request e.raw = true →
      (analyze_logs (es₁ ++ e :: es₂)).errors_found =
        (analyze_logs (es₁ ++ es₂)).errors_found ∧
      (analyze_logs (es₁ ++ e :: es₂)).patterns_matched =
        (analyze_logs (es₁ ++ es₂)).patterns_matched ∧
      (analyze_logs (es₁ ++ e :: es₂)).by_category =
        (analyze_logs (es₁ ++ es₂)).by_category) ∧
    is_bot_scanner_request wpAdminLine = true ∧
    (∀ entry : LogEntry, entry.raw = wpAdminLine → analyze_entry entry = []) ∧
    is_bot_scanner_request pgEntry.raw = false ∧
    (analyze_entry pgEntry).map (fun p => (p.pattern, p.level)) =
      [(pgAuthKey, AlertLevel.critical)] := by
  have hskip : ∀ entry : LogEntry, is_bot_scanner_request entry.raw = true →
      analyze_entry entry = [] := by
    intro entry h
    unfold analyze_entry
    rw [if_pos h]
  refine ⟨hskip, ?_, by decide, ?_, by decide, by decide⟩
  · intro es₁ es₂ e he
    have hfold : (es₁ ++ e :: es₂).foldl processEntry ⟨[], [], []⟩ =
        (es₁ ++ es₂).foldl processEntry ⟨[], [], []⟩ := by
      rw [List.foldl_append, List.foldl_append, List.foldl_cons,
        processEntry_of_no_match (hskip e he)]
    unfold analyze_logs
    rw [hfold]
    exact ⟨rfl, rfl, rfl⟩
  · intro entry h
    exact hskip entry (by rw [h]; decide)

/-- Witness for C3 at a concrete scanner entry inserted into a concrete list. -/
theorem C3_scanner_noise_witness :
    analyze_entry wpEntry = [] ∧
    (analyze_logs [pgEntry, wpEntry]).errors_found =
      (analyze_logs [pgEntry]).errors_found := by
  refine ⟨C3_scanner_noise.2.2.2.1 wpEntry rfl, ?_⟩
  exact (C3_scanner_noise.2.1 [pgEntry] [] wpEntry (by decide)).1

/-- The head of the `pmRel`-insertion-sorted list is a member of the original
list that is minimal under `pmLe`. -/
theorem insertionSort_head_min (l : List PatternMatch) (hne : l ≠ []) :
    ∃ pm ∈ l, (l.insertionSort pmRel).head? = some pm ∧
      ∀ qm ∈ l, pmLe pm qm = true := by
  have hsorted := List.sorted_insertionSort pmRel l
  have hperm := List.perm_insertionSort pmRel l
  have hne' : l.insertionSort pmRel ≠ [] := by
    intro hnil
    have hlen := hperm.length_eq
    rw [hnil] at hlen
    exact hne (List.eq_nil_of_length_eq_zero hlen.symm)
  obtain ⟨pm, tail, hcons⟩ := List.exists_cons_of_ne_nil hne'
  have hmem : pm ∈ l := (List.mem_insertionSort pmRel).mp (by rw [hcons]; simp)
  refine ⟨pm, hmem, by rw [hcons]; rfl, ?_⟩
  intro qm hqm
  have hq : qm ∈ l.insertionSort pmRel := (List.mem_insertionSort pmRel).mpr hqm
  rw [hcons] at hq hsorted
  rcases List.mem_cons.mp hq with rfl | hq'
  · exact pmLe_refl qm
  · exact (List.sorted_cons.mp hsorted).1 qm hq'

set_option maxRecDepth 1000000 in
/-- C4: with no matched patterns `get_most_critical` returns `none`; otherwise
it returns the pattern of a matched record that is minimal under the
(severity rank ascending, count descending) ordering — so only severity and
volume decide, never catalog insertion order; concretely, on one CRITICAL
match plus one-hundred ERROR matches it returns the CRITICAL Postgres
authentication-failure pattern. -/
theorem C4_most_critical (entries : List LogEntry) :
    ((analyze_logs entries).patterns_matched = [] →
      get_most_critical entries = none) ∧
    ((analyze_logs entries).patterns_matched ≠ [] →
      ∃ pm ∈ (analyze_logs entries).patterns_matched,
        get_most_critical entries = some pm.pattern ∧
        ∀ qm ∈ (analyze_logs entries).patterns_matched, pmLe pm qm = true) ∧
    (get_most_critical C4_entries).map (fun p => (p.pattern, p.level)) =
      some (pgAuthKey, AlertLevel.critical) ∧
    (analyze_logs C4_entries).patterns_matched.map
      (fun pm => (pm.pattern.level, pm.count)) =
      [(AlertLevel.critical, 1), (AlertLevel.error, 100)] := by
  refine ⟨?_, ?_, by decide, by decide⟩
  · intro h
    unfold get_most_critical
    rw [if_pos (by simp [h])]
  · intro h
    obtain ⟨pm, hmem, hhead, hmin⟩ :=
      insertionSort_head_min (analyze_logs entries).patterns_matched h
    refine ⟨pm, hmem, ?_, hmin⟩
    unfold get_most_critical
    rw [if_neg (by simp [h])]
    simp [hhead]

/-- Witness for C4's conditional parts at a concrete entry list. -/
theorem C4_most_critical_witness :
    get_most_critical [] = none ∧
    ∃ pm ∈ (analyze_logs [pgEntry]).patterns_matched,
      get_most_critical [pgEntry] = some pm.pattern ∧
      ∀ qm ∈ (analyze_logs [pgEntry]).patterns_matched, pmLe pm qm = true := by
  exact ⟨(C4_most_critical []).1 (by decide), (C4_most_critical [pgEntry]).2.1 (by decide)⟩

/-- The `analyze_logs` fold over entries that all match exactly the single
pattern `p`, started from a state that already tallies `k` earlier matches of
`p` and holds `ss` samples: counts advance by one per entry, samples absorb
entries in input order until three are held. -/
theorem analyze_logs_fold_single (p : ErrorPattern) (es : List LogEntry)
    (h : ∀ e ∈ es, analyze_entry e = [p]) (k : Nat) (ss : List LogEntry) :
    es.foldl processEntry
        ⟨[(p.pattern, k)], [(p.pattern, (p, ss))], [(p.category, k)]⟩ =
      ⟨[(p.pattern, k + es.length)],
        [(p.pattern, (p, ss ++ es.take (3 - ss.length)))],
        [(p.category, k + es.length)]⟩ := by
  induction es generalizing k ss with
  | nil => simp
  | cons e rest ih =>
    have he : analyze_entry e = [p] := h e (by simp)
    have hrest : ∀ e' ∈ rest, analyze_entry e' = [p] :=
      fun e' h' => h e' (by simp [h'])
    rw [List.foldl_cons]
    have hstep : processEntry
        ⟨[(p.pattern, k)], [(p.pattern, (p, ss))], [(p.category, k)]⟩ e =
        ⟨[(p.pattern, k + 1)],
          [(p.pattern, (p, if ss.length < 3 then ss ++ [e] else ss))],
          [(p.category, k + 1)]⟩ := by
      unfold processEntry
      rw [he]
      simp only [List.foldl_cons, List.foldl_nil, processMatch, alGet?, alSet,
        List.find?]
      simp
      split <;> rfl
    rw [hstep]
    by_cases hlen : ss.length < 3
    · rw [if_pos hlen, ih hrest (k + 1) (ss ++ [e])]
      have h3 : 3 - ss.length = (3 - (ss.length + 1)) + 1 := by omega
      simp only [List.length_append, List.length_cons, List.length_nil]
      rw [h3, List.take_succ_cons, List.append_assoc]
      have hk : k + 1 + rest.length = k + (rest.length + 1) := by omega
      simp [hk]
    · rw [if_neg hlen, ih hrest (k + 1) ss]
      have h3 : 3 - ss.length = 0 := by omega
      have hk : k + 1 + rest.length = k + (rest.length + 1) := by omega
      simp [h3, hk]

/-- C5: when every entry of a non-empty list matches exactly the single
pattern `p`, `analyze_logs` reports one record with `count = n` and the first
`min(n, 3)` entries, in input order, as samples. -/
theorem C5_aggregation (p : ErrorPattern) (entries : List LogEntry)
    (hne : entries ≠ []) (h : ∀ e ∈ entries, analyze_entry e = [p]) :
    analyze_logs entries =
      ⟨entries.length, entries.length,
        [⟨p, entries.length, entries.take 3⟩],
        [(p.category, entries.length)]⟩ ∧
    (entries.take 3).length = min 3 entries.length := by
  refine ⟨?_, List.length_take 3 entries⟩
  match entries, hne with
  | e :: rest, _ =>
    have he : analyze_entry e = [p] := h e (by simp)
    have hrest : ∀ e' ∈ rest, analyze_entry e' = [p] :=
      fun e' h' => h e' (by simp [h'])
    unfold analyze_logs
    rw [List.foldl_cons]
    have hfirst : processEntry ⟨[], [], []⟩ e =
        ⟨[(p.pattern, 1)], [(p.pattern, (p, [e]))], [(p.category, 1)]⟩ := by
      unfold processEntry
      rw [he]
      simp [processMatch, alGet?, alSet]
    rw [hfirst, analyze_logs_fold_single p rest hrest 1 [e]]
    simp [alGet?, List.take_succ_cons]
    omega

/-- Witness for C5: five identical connection-refused entries give count 5 and
exactly the first three samples. -/
theorem C5_aggregation_witness :
    analyze_logs (List.replicate 5 cnEntry) =
      ⟨5, 5, [⟨cnPattern, 5, List.replicate 3 cnEntry⟩], [("network", 5)]⟩ := by
  exact ((C5_aggregation cnPattern (List.replicate 5 cnEntry)
    (by decide) (by decide)).1).trans (by decide)

/-- C6: parsing yields exactly one entry per non-blank input line, in input
order, each carrying the untouched original line in `raw`; and the concrete
ISO line parses to timestamp 2024-01-15T10:30:45, level ERROR and a message
containing "connection refused". -/
theorem C6_parse_lines (raw_logs service : String) :
    ((parse_logs raw_logs service).map (fun e => e.raw) =
      (splitLines raw_logs).filter (fun l => !(pyStrip l == ""))) ∧
    parse_logs "2024-01-15T10:30:45.123Z ERROR: connection refused" "app" =
      [⟨some ⟨2024, 1, 15, 10, 30, 45⟩, "ERROR", "connection refused", "app",
        "2024-01-15T10:30:45.123Z ERROR: connection refused"⟩] ∧
    ∀ e ∈ parse_logs "2024-01-15T10:30:45.123Z ERROR: connection refused" "app",
      ∃ pre post, e.message = pre ++ "connection refused" ++ post := by
  have hconc : parse_logs "2024-01-15T10:30:45.123Z ERROR: connection refused" "app" =
      [⟨some ⟨2024, 1, 15, 10, 30, 45⟩, "ERROR", "connection refused", "app",
        "2024-01-15T10:30:45.123Z ERROR: connection refused"⟩] := by decide
  refine ⟨?_, hconc, ?_⟩
  · unfold parse_logs
    generalize splitLines raw_logs = ls
    induction ls with
    | nil => rfl
    | cons l ls ih =>
      simp only [List.filterMap_cons, List.filter_cons]
      by_cases hb : (pyStrip l == "") = true
      · simpa [hb] using ih
      · simpa [hb] using ih
  · intro e he
    rw [hconc] at he
    have he' := List.mem_singleton.mp he
    subst he'
    exact ⟨"", "", by decide⟩

/-- Witness for C6's per-entry message clause at the concrete ISO line. -/
theorem C6_parse_lines_witness :
    ∃ pre post,
      (⟨some ⟨2024, 1, 15, 10, 30, 45⟩, "ERROR", "connection refused", "app",
        "2024-01-15T10:30:45.123Z ERROR: connection refused"⟩ : LogEntry).message =
        pre ++ "connection refused" ++ post := by
  exact (C6_parse_lines "" "").2.2 _ (by
    rw [(C6_parse_lines "" "").2.1]
    exact List.mem_singleton.mpr rfl)

/-- C7 (code bug in `_extract_message`): the line `"ERROR:"` has non-blank
content, yet the extracted message is the empty string — the
`line.strip() or line` fallback returns the post-substitution residue, not
the original line, so the parsed entry carries an empty message. -/
theorem C7_empty_message :
    pyStrip "ERROR:" ≠ "" ∧
    extract_message "ERROR:" = "" ∧
    parse_logs "ERROR:" "app" = [⟨none, "ERROR", "", "app", "ERROR:"⟩] := by
  exact ⟨by decide, by decide, by decide⟩

/-- A list with a satisfying element is not empty (Bool form). -/
theorem isEmpty_false_of_any {α : Type} {l : List α} {f : α → Bool}
    (h : l.any f = true) : l.isEmpty = false := by
  cases l with
  | nil => simp at h
  | cons a t => rfl

/-- C8: `overall_health` is the worst-severity rollup — "unknown" on an empty
report, "critical" as soon as any service or alert is CRITICAL, else
"degraded" on any ERROR, else "warning" on any WARNING, else "healthy"; report
construction computes it, and the agent's alert-adding step recomputes it over
the extended alert list. -/
theorem C8_overall_health :
    calculate_overall_health [] [] = "unknown" ∧
    (∀ (services : List ServiceStatus) (alerts : List Alert),
      (services.any (fun s => s.alert_level == .critical) ||
        alerts.any (fun a => a.level == .critical)) = true →
      calculate_overall_health services alerts = "critical") ∧
    (∀ (services : List ServiceStatus) (alerts : List Alert),
      (services.any (fun s => s.alert_level == .critical) ||
        alerts.any (fun a => a.level == .critical)) = false →
      (services.any (fun s => s.alert_level == .error) ||
        alerts.any (fun a => a.level == .error)) = true →
      calculate_overall_health services alerts = "degraded") ∧
    (∀ (services : List ServiceStatus) (alerts : List Alert),
      (services.any (fun s => s.alert_level == .critical) ||
        alerts.any (fun a => a.level == .critical)) = false →
      (services.any (fun s => s.alert_level == .error) ||
        alerts.any (fun a => a.level == .error)) = false →
      (services.any (fun s => s.alert_level == .warning) ||
        alerts.any (fun a => a.level == .warning)) = true →
      calculate_overall_health services alerts = "warning") ∧
    (∀ (services : List ServiceStatus) (alerts : List Alert),
      (services.isEmpty && alerts.isEmpty) = false →
      (services.any (fun s => s.alert_level == .critical) ||
        alerts.any (fun a => a.level == .critical)) = false →
      (services.any (fun s => s.alert_level == .error) ||
        alerts.any (fun a => a.level == .error)) = false →
      (services.any (fun s => s.alert_level == .warning) ||
        alerts.any (fun a => a.level == .warning)) = false →
      calculate_overall_health services alerts = "healthy") ∧
    (∀ (r : DiagnosticReport) (security_alerts : List Alert),
      (r.add_alerts security_alerts).overall_health =
        calculate_overall_health r.services (r.alerts ++ security_alerts)) ∧
    (∀ (server : String) (services : List ServiceStatus) (alerts : List Alert),
      (DiagnosticReport.create server services alerts).overall_health =
        calculate_overall_health services alerts) := by
  have hne_or : ∀ (services : List ServiceStatus) (alerts : List Alert)
      (f : ServiceStatus → Bool) (g : Alert → Bool),
      (services.any f || alerts.any g) = true →
      (services.isEmpty && alerts.isEmpty) = false := by
    intro services alerts f g h
    rcases (by simpa using h : services.any f = true ∨ alerts.any g = true) with h' | h'
    · rw [isEmpty_false_of_any h']
      rfl
    · rw [isEmpty_false_of_any h']
      simp
  refine ⟨by decide, ?_, ?_, ?_, ?_, fun r as => rfl, fun srv s a => rfl⟩
  · intro services alerts hcrit
    unfold calculate_overall_health
    rw [if_neg (by simp [hne_or services alerts _ _ hcrit])]
    simp only [hcrit, if_true]
  · intro services alerts hcrit herr
    unfold calculate_overall_health
    rw [if_neg (by simp [hne_or services alerts _ _ herr])]
    simp only [hcrit, herr, Bool.false_eq_true, if_false, if_true]
  · intro services alerts hcrit herr hwarn
    unfold calculate_overall_health
    rw [if_neg (by simp [hne_or services alerts _ _ hwarn])]
    simp only [hcrit, herr, hwarn, Bool.false_eq_true, if_false, if_true]
  · intro services alerts hne hcrit herr hwarn
    unfold calculate_overall_health
    rw [if_neg (by simp [hne])]
    simp only [hcrit, herr, hwarn, Bool.false_eq_true, if_false]

/-- Witness for C8: an empty report is "unknown"; adding one CRITICAL alert
(alongside a WARNING one) flips it to "critical". -/
theorem C8_overall_health_witness :
    (DiagnosticReport.create "srv" [] []).overall_health = "unknown" ∧
    ((DiagnosticReport.create "srv" [] []).add_alerts
      [⟨.critical, "server", "t", "d", "a"⟩,
        ⟨.warning, "server", "t2", "d2", "a2"⟩]).overall_health = "critical" := by
  constructor
  · exact (C8_overall_health.2.2.2.2.2.2 "srv" [] []).trans C8_overall_health.1
  · rw [C8_overall_health.2.2.2.2.2.1 (DiagnosticReport.create "srv" [] [])
      [⟨.critical, "server", "t", "d", "a"⟩, ⟨.warning, "server", "t2", "d2", "a2"⟩]]
    exact C8_overall_health.2.1 _ _ (by decide)

/-- C9 counterexample: on a fresh `SecurityCollector` (the `_checkers = {}`
state `__init__` creates) the first `check_all` performs zero firewall queries
— it aborts with the `TypeError` raised while lazily constructing the network
checker — and a second `check_all` on the same collector, run while the live
firewall state differs, likewise performs zero firewall queries and observes
no status at all: it does not re-query the firewall state. -/
theorem C9_requery_counterexample :
    (SecurityCollector.check_all ⟨none⟩ ufwA).result =
      .error networkCheckerTypeError ∧
    (SecurityCollector.check_all ⟨none⟩ ufwA).ufw_queries = 0 ∧
    ((SecurityCollector.check_all ⟨none⟩ ufwA).collector.check_all ufwB).result =
      .error networkCheckerTypeError ∧
    ((SecurityCollector.check_all ⟨none⟩ ufwA).collector.check_all ufwB).ufw_queries = 0 ∧
    ufwA ≠ ufwB := by
  exact ⟨rfl, rfl, rfl, rfl, by decide⟩

/-- C9 (amended): `check_all` never reaches a firewall-status lookup.  From
the collector state `__init__` creates, every `check_all` aborts with the
`TypeError` of the transport-less `NetworkSecurityChecker()` construction,
performs zero UFW transport queries, and leaves the collector unchanged — so
no UFW status is ever queried or cached, and nothing is memoized either
within one audit or across audits. -/
theorem C9_no_firewall_query (live1 live2 : UfwStatus) :
    SecurityCollector.check_all ⟨none⟩ live1 =
      ⟨.error networkCheckerTypeError, 0, ⟨none⟩⟩ ∧
    (SecurityCollector.check_all ⟨none⟩ live1).collector.check_all live2 =
      ⟨.error networkCheckerTypeError, 0, ⟨none⟩⟩ := by
  exact ⟨rfl, rfl⟩

/-- C10: blocked patterns are compiled with `re.IGNORECASE` but allowed
patterns are compiled case-sensitively, so `"RM -RF /tmp/x"` is rejected via
the blocklist while `"DOCKER PS"` is rejected as not in the allowlist even
though `"docker ps"` is allowed. -/
theorem C10_case_sensitivity :
    is_command_allowed "RM -RF /tmp/x" = (false, "Command contains blocked pattern") ∧
    is_command_allowed "DOCKER PS" =
      (false,
        "Command not in allowlist. Only read-only diagnostic commands are permitted.") ∧
    is_command_allowed "docker ps" = (true, "Command matches allowed pattern") := by
  exact ⟨by decide, by decide, by decide⟩

end Dozor
